import Mathlib

/-!
# A verification development for `np_services` (proxies.py, utils.py)

A shallow embedding of the device-lifecycle orchestration core of
`np_services`: the time-windowed data locator, the disk-space preflight
checker, the start/stop/finalize lifecycle methods of the device proxy
classes, the `stop_on_error` / `suppress` context managers and the
file-growth verification heuristic.  Timestamps, file sizes in GB and
recording rates are modelled as rationals (Python floats at the precision
the properties need), fallible Python code as `Except PyErr`, and the
device-visible side effects of lifecycle methods as explicit event lists.
-/

namespace NpServices

/-- The Python exception classes that the embedded code can raise. -/
inductive PyErr where
  | assertionError
  | valueError
  | fileNotFoundError
  | testError
  | connectionError
  | zroError
  deriving DecidableEq, Repr

/-- Python `int(q)` on a float: truncation toward zero. -/
def pyInt (q : ℚ) : ℤ := if 0 ≤ q then ⌊q⌋ else ⌈q⌉

/-- Python `round(q)` ties-to-even at integer precision (banker's rounding),
used by `round(x, 1)` after scaling by 10. -/
def roundHalfEven (q : ℚ) : ℤ :=
  if Int.fract q = 1 / 2 then (if Even ⌊q⌋ then ⌊q⌋ else ⌊q⌋ + 1) else round q

/-- Python `round(q, 1)`: round to one decimal place, ties to even. -/
def pyRound1 (q : ℚ) : ℚ := (roundHalfEven (10 * q) : ℚ) / 10

/-- A file in a device's data directory as the data locator observes it:
a name, a creation time (`st_ctime`) and a modification time (`st_mtime`). -/
structure DataFile where
  name : String
  ctime : ℚ
  mtime : ℚ
  deriving DecidableEq, Repr

/-- Order on files by creation time: the sort key `ctime` of
`utils.get_files_created_between`. -/
def fleq (a b : DataFile) : Prop := a.ctime ≤ b.ctime

instance : DecidableRel fleq := fun a b => inferInstanceAs (Decidable (a.ctime ≤ b.ctime))

instance : IsTotal DataFile fleq := ⟨fun a b => le_total a.ctime b.ctime⟩

instance : IsTrans DataFile fleq := ⟨fun _ _ _ h h' => le_trans h h'⟩

/-- `utils.get_files_created_between(path, glob, start, end)`.

`dir` is the directory listing, `globMatch` the glob predicate (the files
`path.glob(glob)` yields are exactly the `f ∈ dir` with `globMatch f`),
`endOpt` the `end` argument (`none` = the default `None`) and `now` the
value of `time.time()`.  The source keeps a file `f` iff
`int(start) <= f.st_ctime <= end`, where `end` is replaced by `time.time()`
when it is falsy (`None` or `0`), and returns the kept files sorted
ascending by creation time (`sorted(files, key=ctime)`, a stable sort,
embedded as a stable insertion sort by `ctime`). -/
def get_files_created_between (dir : List DataFile) (globMatch : DataFile → Bool)
    (start : ℚ) (endOpt : Option ℚ) (now : ℚ) : List DataFile :=
  let e : ℚ := match endOpt with
    | none => now
    | some v => if v = 0 then now else v
  List.insertionSort fleq
    ((dir.filter globMatch).filter fun f =>
      decide ((pyInt start : ℚ) ≤ f.ctime) && decide (f.ctime ≤ e))

/-- The mutable last-error slot `cls.exc` of a proxy class. -/
structure ProxyErrSt where
  exc : Option PyErr
  deriving DecidableEq, Repr

/-- `Proxy.get_required_disk_gb()`: `0.0` when the device variant is not
`Startable` (generates no data), else `round(cls.min_rec_hr * cls.gb_per_hr, 1)`. -/
def get_required_disk_gb (startable : Bool) (min_rec_hr gb_per_hr : ℚ) : ℚ :=
  if startable = false then 0 else pyRound1 (min_rec_hr * gb_per_hr)

/-- `utils.free_gb(path)`: `round(shutil.disk_usage(path).free / 1e9, 1)`;
raises `FileNotFoundError` when the path is not accessible (`freeBytes = none`). -/
def free_gb (freeBytes : Option ℚ) : Except PyErr ℚ :=
  match freeBytes with
  | none => .error .fileNotFoundError
  | some b => .ok (pyRound1 (b / 1000000000))

/-- `Proxy.is_disk_space_ok()`: `True` outright when the required space is
`0.0` (never reads the filesystem); otherwise computes `utils.free_gb` at the
data root, returning `False` and recording the exception in `cls.exc` when
the root is inaccessible, and `free > required` otherwise. -/
def is_disk_space_ok (startable : Bool) (min_rec_hr gb_per_hr : ℚ)
    (freeBytes : Option ℚ) (st : ProxyErrSt) : Bool × ProxyErrSt :=
  let required := get_required_disk_gb startable min_rec_hr gb_per_hr
  if required = 0 then (true, st)
  else
    match free_gb freeBytes with
    | .error e => (false, { exc := some e })
    | .ok free => (decide (required < free), st)

/-- `CamstimSyncShared.is_started()`: the state tuple is non-empty and every
message of `cls.started_state` occurs in it (`len(state) and all(msg in state
for msg in cls.started_state)`).  The state tuple/sequence is embedded as the
list of its fields.  `VideoMVR.is_started` is the same test written with an
explicit `if`/`return`. -/
def is_started (started_state state : List String) : Bool :=
  state.length != 0 && started_state.all (fun msg => state.contains msg)

/-- `CamstimSyncShared.is_ready_to_start()`: `False` when already started,
else `True` iff `"READY"` occurs in the state sequence.  (The deprecated
mapping-shaped state, `state.get("message") == "READY"`, is not embedded:
per the source comment it is no longer returned by any proxy.) -/
def is_ready_to_start (started_state state : List String) : Bool :=
  if is_started started_state state then false
  else state.contains "READY"

/-- `Sync.started_state = ("BUSY", "RECORDING")`, also `VideoMVR.started_state`. -/
def syncStartedState : List String := ["BUSY", "RECORDING"]

/-- A command a lifecycle method sends to the remote device. -/
inductive Cmd where
  | start
  | stop
  | startScript
  | startRecord
  | takeSnapshot
  deriving DecidableEq, Repr

/-- An observable side effect of a lifecycle method: recording the start
timestamp (`cls.latest_start = time.time()`), recording an exception
(`obj.exc = exc` in `stop_on_error`), or sending a command to the device. -/
inductive Evt where
  | recordStart (t : ℚ)
  | excRecorded
  | cmd (c : Cmd)
  deriving DecidableEq, Repr

/-- The class-level mutable history of one device proxy during a run. -/
structure DeviceRun where
  evts : List Evt
  latest_start : ℚ
  deriving DecidableEq, Repr

/-- `CamstimSyncShared.start()`: no-op (a logged warning) when the device is
already started; `AssertionError` without commanding the device when it is
not ready; otherwise it records `cls.latest_start = time.time()` and then
issues `cls.get_proxy().start()`. -/
def camstimSyncStart (started_state state : List String) (now : ℚ)
    (d : DeviceRun) : DeviceRun × Option PyErr :=
  if is_started started_state state then (d, none)
  else if is_ready_to_start started_state state = false then
    (d, some .assertionError)
  else
    ({ evts := d.evts ++ [.recordStart now, .cmd .start], latest_start := now }, none)

/-- `ScriptCamstim.start()`: records `cls.latest_start = time.time()` and
issues `start_script` unconditionally — there is no started / readiness
check in this override. -/
def scriptCamstimStart (now : ℚ) (d : DeviceRun) : DeviceRun × Option PyErr :=
  ({ evts := d.evts ++ [.recordStart now, .cmd .startScript], latest_start := now }, none)

/-- `VideoMVR.start()`: records `cls.latest_start = time.time()` and issues
`start_record` unconditionally — there is no started / readiness check in
this override. -/
def videoMVRStart (now : ℚ) (d : DeviceRun) : DeviceRun × Option PyErr :=
  ({ evts := d.evts ++ [.recordStart now, .cmd .startRecord], latest_start := now }, none)

/-- One camera's status fields as MVR reports them. -/
structure CamStatus where
  is_open : Bool
  is_streaming : Bool
  is_recording : Bool
  deriving DecidableEq, Repr

/-- `MVR.is_ready_to_start()`: `False` when started, else every camera is
open, streaming and not recording. -/
def mvrIsReadyToStart (startedNow : Bool) (cams : List CamStatus) : Bool :=
  if startedNow then false
  else cams.all fun c => c.is_open && c.is_streaming && !c.is_recording

/-- `ImageMVR.start()`: `AssertionError` without commanding the device when
`is_ready_to_start()` is false; otherwise records `cls.latest_start` and
issues `take_snapshot`. -/
def imageMVRStart (startedNow : Bool) (cams : List CamStatus) (now : ℚ)
    (d : DeviceRun) : DeviceRun × Option PyErr :=
  if mvrIsReadyToStart startedNow cams = false then (d, some .assertionError)
  else
    ({ evts := d.evts ++ [.recordStart now, .cmd .takeSnapshot], latest_start := now }, none)

/-- The waiting loop of `Sync.finalize` / `Camstim.finalize`:
`while not cls.is_ready_to_start(): time.sleep(1)`.  `ready i` is the value
of `is_ready_to_start()` at the `i`-th poll; the loop has **no deadline**, so
it is embedded with explicit fuel: `some i` when poll `i < fuel` first
observes ready, `none` when the loop is still running after `fuel` polls. -/
def syncFinalizeLoop (ready : Nat → Bool) (i fuel : Nat) : Option Nat :=
  match fuel with
  | 0 => none
  | fuel + 1 => if ready i then some i else syncFinalizeLoop ready (i + 1) fuel

/-- `Sync.finalize()`: stops the device if still started, waits in
`syncFinalizeLoop`, then extends `cls.data_files` with
`cls.get_latest_data("*.h5")`.  Returns `none` while the wait loop has not
finished within `fuel` polls, else the issued commands, the data-file list
after the call and the newly appended files. -/
def syncFinalize (startedNow : Bool) (ready : Nat → Bool) (fuel : Nat)
    (data_files newFiles : List DataFile) :
    Option (List Evt × List DataFile × List DataFile) :=
  let evts : List Evt := if startedNow then [.cmd .stop] else []
  match syncFinalizeLoop ready 0 fuel with
  | none => none
  | some _ => some (evts, data_files ++ newFiles, newFiles)

/-- The waiting loop of `VideoMVR.finalize`:
`while not cls.is_ready_to_start() and not timedout(): time.sleep(1)` with
`timedout() = time.time() > t0 + 30`.  Polls happen at one-second cadence,
so at the poll taken `t` seconds after `t0` the deadline has passed iff
`30 < t`.  Returns the elapsed time at loop exit.  The fuel argument is the
structural recursion bound; 32 polls always suffice (`videoMVRWait_exits`). -/
def videoMVRWait (ready : Nat → Bool) (t fuel : Nat) : Nat :=
  match fuel with
  | 0 => t
  | fuel + 1 => if ready t || decide (30 < t) then t else videoMVRWait ready (t + 1) fuel

/-- `VideoMVR.finalize()`: stops the device if still started, waits in
`videoMVRWait`; on `if timedout()` it logs a warning and returns **without
appending anything** (an empty artifact delta), else extends
`cls.data_files` with the newly located files.  Returns the issued commands,
the data-file list after the call and the new-artifact delta. -/
def videoMVRFinalize (startedNow : Bool) (ready : Nat → Bool)
    (data_files newFiles : List DataFile) :
    List Evt × List DataFile × List DataFile :=
  let evts : List Evt := if startedNow then [.cmd .stop] else []
  let tExit := videoMVRWait ready 0 32
  if 30 < tExit then (evts, data_files, [])
  else (evts, data_files ++ newFiles, newFiles)

/-- The waiting loop of `ImageMVR.finalize`:
`while (cls.is_started() or not cls.is_ready_to_start() or not
cls.get_latest_data("*") or cls.get_latest_data(".bmp")) and not timedout():
time.sleep(1)` with `timedout() = time.time() > t0 + 10`.  `busy t` is the
value of that compound still-processing condition at the poll taken `t`
seconds after `t0`; the deadline has passed iff `10 < t`.  Returns the
elapsed time at loop exit; 12 polls of fuel always suffice
(`imageMVRWait_exits`). -/
def imageMVRWait (busy : Nat → Bool) (t fuel : Nat) : Nat :=
  match fuel with
  | 0 => t
  | fuel + 1 => if !busy t || decide (10 < t) then t else imageMVRWait busy (t + 1) fuel

/-- `ImageMVR.finalize()`: waits in `imageMVRWait`; on `if timedout()` it
logs a warning and returns **without appending anything** (an empty artifact
delta), else extends `cls.data_files` with the newly located files.  It
issues no command to the device at all — in particular no stop:
`ImageMVR.finalize` contains no `stop()` call, and `ImageMVR.stop` is
overloaded to do nothing.  Returns the data-file list after the call and the
new-artifact delta. -/
def imageMVRFinalize (busy : Nat → Bool) (data_files newFiles : List DataFile) :
    List DataFile × List DataFile :=
  let tExit := imageMVRWait busy 0 12
  if 10 < tExit then (data_files, [])
  else (data_files ++ newFiles, newFiles)

/-- Python `max(files, key=lambda x: x.stat().st_mtime)`: the first file with
maximal modification time; `ValueError` on an empty sequence. -/
def maxByMtime (files : List DataFile) : Except PyErr DataFile :=
  match files with
  | [] => .error .valueError
  | f :: rest => .ok (rest.foldl (fun a b => if a.mtime < b.mtime then b else a) f)

/-- proxies.py line 60 declares `latest_start: ClassVar[int] = 0` on `Proxy`
itself, so `hasattr(cls, "latest_start")` is `True` for every proxy class
from the moment it is defined, started or not. -/
def proxyHasLatestStartAttr : Bool := true

/-- `Proxy.get_latest_data(glob)`: when the class has no `latest_start`
attribute, return the single most-recently-modified file among all matching
files (`max(get_files_created_between(root, glob), key=mtime)`); otherwise
return `get_files_created_between(root, glob, cls.latest_start)`.  The
caller passes `proxyHasLatestStartAttr` for the `hasattr` test. -/
def get_latest_data (hasLatestStartAttr : Bool) (latest_start : ℚ)
    (dir : List DataFile) (globMatch : DataFile → Bool) (now : ℚ) :
    Except PyErr (List DataFile) :=
  if hasLatestStartAttr = false then
    match maxByMtime (get_files_created_between dir globMatch 0 none now) with
    | .error e => .error e
    | .ok f => .ok [f]
  else .ok (get_files_created_between dir globMatch latest_start none now)

/-- `utils.stop_on_error(obj, reraise=True)` wrapped around a body that
produced the device history `body.1` and raised `body.2`: on success it
changes nothing; on an exception it records the exception on the object,
calls `obj.stop()` (both inside `contextlib.suppress(Exception)`, so a
failing stop cannot mask the original error) and re-raises the original
exception when `reraise` is true. -/
def stop_on_error_run (reraise : Bool) (body : DeviceRun × Option PyErr) :
    DeviceRun × Option PyErr :=
  match body with
  | (d, none) => (d, none)
  | (d, some e) =>
      ({ d with evts := d.evts ++ [.excRecorded, .cmd .stop] },
       if reraise then some e else none)

/-- The body of the `with utils.stop_on_error(cls):` block in
`CamstimSyncShared.pretest`: `cls.start(); time.sleep(1); cls.verify();
time.sleep(cls.pretest_duration_sec)`.  `verifyErr` injects the exception
`cls.verify()` raises, if any (e.g. the `AssertionError` of a non-growing
file, or `Sync.verify`'s `ValueError` on an empty file). -/
def camstimBody (started_state state : List String) (now : ℚ)
    (verifyErr : Option PyErr) (d : DeviceRun) : DeviceRun × Option PyErr :=
  match camstimSyncStart started_state state now d with
  | (d1, some e) => (d1, some e)
  | (d1, none) =>
    match verifyErr with
    | some e => (d1, some e)
    | none => (d1, none)

/-- `CamstimSyncShared.pretest()` from `start()` on: the guarded body under
`stop_on_error`, then (only when the body did not raise) `cls.finalize()`,
whose first step `if cls.is_started(): cls.stop()` stops the device — after
a successful body the device is recording, whether `start()` commanded it or
found it already started.  `(initialize()` and the artifact steps of
`finalize()`/`validate()` touch no start/stop state and are omitted.) -/
def camstimPretest (started_state state : List String) (now : ℚ)
    (verifyErr : Option PyErr) : DeviceRun × Option PyErr :=
  let d0 : DeviceRun := { evts := [], latest_start := 0 }
  match stop_on_error_run true (camstimBody started_state state now verifyErr d0) with
  | (d1, some e) => (d1, some e)
  | (d1, none) => ({ d1 with evts := d1.evts ++ [.cmd .stop] }, none)

/-- `ScriptCamstim.pretest()` from `start()` on: `cls.start()` (no guard,
no readiness check), then `while not cls.is_ready_to_start():
time.sleep(10)`, then `cls.finalize()`.  `waitErr` injects an exception
raised by the `is_ready_to_start()` status probe inside the wait loop (a
network error): it propagates to the caller directly — no context manager
wraps this call sequence.  On the no-error path the loop exits only once the
script has finished, so `finalize()` finds the device not started and issues
no stop either. -/
def scriptCamstimPretest (now : ℚ) (waitErr : Option PyErr) :
    DeviceRun × Option PyErr :=
  let d0 : DeviceRun := { evts := [], latest_start := 0 }
  match scriptCamstimStart now d0 with
  | (d1, some e) => (d1, some e)
  | (d1, none) =>
    match waitErr with
    | some e => (d1, some e)
    | none => (d1, none)

/-- How a Python block exits: normally, or with an exception in flight. -/
inductive PyFlow where
  | completed
  | raising (e : PyErr)
  deriving DecidableEq, Repr

/-- The clause `except exceptions or Exception` of `utils.suppress`: when the
argument tuple is empty it catches every `Exception`; otherwise it catches
exactly the listed types. -/
def exceptClauseHandles (listed : List PyErr) (e : PyErr) : Bool :=
  listed.isEmpty || listed.contains e

/-- The `try`/`except` part of `utils.suppress`: a caught exception is logged
and handling completes normally; an exception the clause does not match is
still in flight afterwards. -/
def suppressTryExcept (listed : List PyErr) (r : PyFlow) : PyFlow :=
  match r with
  | .completed => .completed
  | .raising e => if exceptClauseHandles listed e then .completed else .raising e

/-- A `return` inside a `finally:` block: Python discards any in-flight
exception and the frame returns normally. -/
def finallyReturn : PyFlow → PyFlow := fun _ => .completed

/-- `with utils.suppress(*exceptions):` around a body with outcome `body`:
the generator receives the body's exception at its `yield`, runs its
`except` clause and then its `finally: return`.  Because the generator then
returns normally instead of re-raising, `contextlib`'s `__exit__` reports
the exception as handled, so the `with` block always exits normally. -/
def suppressRun (listed : List PyErr) (body : PyFlow) : PyFlow :=
  finallyReturn (suppressTryExcept listed body)

/-- `utils.is_file_growing(path)` given the file's size at the first `stat`
and at the second `stat` after the sleep: the sleep duration is
`c * math.log10(size_0)` and `math.log10(0)` raises
`ValueError: math domain error`, so a zero-byte file raises; otherwise the
file is "growing" iff the second size differs from the first. -/
def is_file_growing (size0 size1 : Nat) : Except PyErr Bool :=
  if size0 = 0 then .error .valueError
  else .ok (decide (size1 ≠ size0))

/-- `Sync.verify()`: `AssertionError` when the device is not started;
otherwise, when a data root is configured, it calls
`utils.is_file_growing` on the latest data file (sizes `size0`, `size1`) —
an exception from it propagates — and raises `AssertionError` when the file
is not growing. -/
def syncVerify (startedNow : Bool) (hasDataRoot : Bool) (size0 size1 : Nat) :
    Except PyErr Unit :=
  if startedNow = false then .error .assertionError
  else if hasDataRoot then
    match is_file_growing size0 size1 with
    | .error e => .error e
    | .ok g => if g then .ok () else .error .assertionError
  else .ok ()

/-! ## Helper lemmas -/

/-- The `Sync.finalize`/`Camstim.finalize` wait loop never finishes, with any
amount of fuel, against a device that never reports ready. -/
theorem syncFinalizeLoop_alwaysBusy :
    ∀ (fuel i : Nat), syncFinalizeLoop (fun _ => false) i fuel = none := by
  intro fuel
  induction fuel with
  | zero => intro i; rfl
  | succ n ih => intro i; simpa [syncFinalizeLoop] using ih (i + 1)

/-- The `VideoMVR.finalize` wait loop never moves past one second beyond its
30-second deadline. -/
theorem videoMVRWait_le (ready : Nat → Bool) :
    ∀ (fuel t : Nat), t ≤ 31 → videoMVRWait ready t fuel ≤ 31 := by
  intro fuel
  induction fuel with
  | zero => intro t ht; simpa [videoMVRWait] using ht
  | succ n ih =>
    intro t ht
    rw [videoMVRWait]
    by_cases h : (ready t || decide (30 < t)) = true
    · simpa [h] using ht
    · simp only [h, if_false]
      apply ih
      simp only [Bool.or_eq_true, decide_eq_true_eq, not_or] at h
      omega

/-- 32 polls of fuel always suffice for the `VideoMVR.finalize` wait loop:
at its result the genuine loop exit condition holds (device ready, or the
deadline has passed) — the fuel never runs out first. -/
theorem videoMVRWait_exits (ready : Nat → Bool) :
    ∀ (fuel t : Nat), 31 ≤ t + fuel →
      ready (videoMVRWait ready t fuel) = true ∨ 30 < videoMVRWait ready t fuel := by
  intro fuel
  induction fuel with
  | zero =>
    intro t ht
    right
    simp only [videoMVRWait]
    omega
  | succ n ih =>
    intro t ht
    rw [videoMVRWait]
    by_cases h : (ready t || decide (30 < t)) = true
    · simp only [h, if_true]
      simpa [Bool.or_eq_true, decide_eq_true_eq] using h
    · simp only [h, if_false]
      apply ih
      omega

/-- The `ImageMVR.finalize` wait loop never moves past one second beyond its
10-second deadline. -/
theorem imageMVRWait_le (busy : Nat → Bool) :
    ∀ (fuel t : Nat), t ≤ 11 → imageMVRWait busy t fuel ≤ 11 := by
  intro fuel
  induction fuel with
  | zero => intro t ht; simpa [imageMVRWait] using ht
  | succ n ih =>
    intro t ht
    rw [imageMVRWait]
    by_cases h : (!busy t || decide (10 < t)) = true
    · simpa [h] using ht
    · simp only [h, if_false]
      apply ih
      simp only [Bool.or_eq_true, Bool.not_eq_true', decide_eq_true_eq, not_or] at h
      omega

/-- 12 polls of fuel always suffice for the `ImageMVR.finalize` wait loop:
at its result the genuine loop exit condition holds (the device is done
processing, or the deadline has passed) — the fuel never runs out first. -/
theorem imageMVRWait_exits (busy : Nat → Bool) :
    ∀ (fuel t : Nat), 11 ≤ t + fuel →
      busy (imageMVRWait busy t fuel) = false ∨ 10 < imageMVRWait busy t fuel := by
  intro fuel
  induction fuel with
  | zero =>
    intro t ht
    right
    simp only [imageMVRWait]
    omega
  | succ n ih =>
    intro t ht
    rw [imageMVRWait]
    by_cases h : (!busy t || decide (10 < t)) = true
    · simp only [h, if_true]
      simpa [Bool.or_eq_true, Bool.not_eq_true', decide_eq_true_eq] using h
    · simp only [h, if_false]
      apply ih
      omega

/-! ## The claims -/

/-- C9: the `utils.suppress` context manager suppresses every exception
raised in its body — including exception types not listed in its arguments,
because its `finally` block executes a `return` — so for every body and
every raised exception, control exits the `with` block normally and nothing
propagates to the caller.  The second conjunct shows the `except` clause
itself really does pass an unlisted exception through (the suppression comes
from the `finally: return` step), and the third that the `with` block still
exits normally in exactly that situation. -/
theorem c9_suppress_swallows_every_exception :
    (∀ (listed : List PyErr) (body : PyFlow), suppressRun listed body = .completed) ∧
    suppressTryExcept [PyErr.valueError] (PyFlow.raising .assertionError) =
      PyFlow.raising .assertionError ∧
    suppressRun [PyErr.valueError] (PyFlow.raising .assertionError) = .completed :=
  ⟨fun _ _ => rfl, by decide, by decide⟩

/-- C10: `utils.is_file_growing` on a zero-byte file raises `ValueError`
(`math.log10(0)` is a math domain error) rather than returning `False`, so
`Sync.verify()` on a started device whose latest artifact is empty fails
with `ValueError`, not the documented `AssertionError`. -/
theorem c10_zero_byte_file_raises_valueerror :
    (∀ size1 : Nat, is_file_growing 0 size1 = .error .valueError) ∧
    syncVerify true true 0 0 = .error .valueError ∧
    PyErr.valueError ≠ PyErr.assertionError :=
  ⟨fun _ => rfl, rfl, by decide⟩

/-- C3 counterexample: `VideoMVR` is a `Startable` device whose state
`("BUSY", "RECORDING")` reports it already started, yet `VideoMVR.start()`
issues a fresh `start_record` command to the device (it performs no
already-started check), so a second `start()` before `stop()` is **not** a
no-op on every `Startable` device. -/
theorem c3_counterexample :
    is_started syncStartedState ["BUSY", "RECORDING"] = true ∧
    (videoMVRStart 100 { evts := [], latest_start := 0 }).1.evts =
      [.recordStart 100, .cmd .startRecord] ∧
    (videoMVRStart 100 { evts := [], latest_start := 0 }).2 = none :=
  ⟨by decide, rfl, rfl⟩

/-- C3 (amended): for the `CamstimSyncShared` devices (`Sync`, `Camstim` and
their subclasses that do not override `start`), a second `start()` while the
device reports started is a no-op — a logged warning, no new start command,
no state change; but `VideoMVR.start()` (like `ScriptCamstim.start()`)
performs no started check and always records a start timestamp and issues
its start command. -/
theorem c3_amended_second_start_noop (ss st : List String) (now : ℚ)
    (d : DeviceRun) (h : is_started ss st = true) :
    camstimSyncStart ss st now d = (d, none) ∧
    videoMVRStart now d =
      ({ evts := d.evts ++ [.recordStart now, .cmd .startRecord],
         latest_start := now }, none) := by
  constructor
  · simp [camstimSyncStart, h]
  · rfl

/-- Witness for `c3_amended_second_start_noop` at the started state
`("BUSY", "RECORDING")` of `Sync`. -/
theorem c3_witness :
    camstimSyncStart syncStartedState ["BUSY", "RECORDING"] 5
        { evts := [], latest_start := 0 } =
      ({ evts := [], latest_start := 0 }, none) :=
  (c3_amended_second_start_noop syncStartedState ["BUSY", "RECORDING"] 5
    { evts := [], latest_start := 0 } (by decide)).1

/-- C4 counterexample: with state `("", "WAITING")` the device is neither
started nor ready to start, yet `ScriptCamstim.start()` raises nothing and
commands the device (`start_script`) — it performs no readiness check, so
"for every `Startable` device … `start()` fails with an assertion-style
error and does not command the device" is false. -/
theorem c4_counterexample :
    is_started syncStartedState ["", "WAITING"] = false ∧
    is_ready_to_start syncStartedState ["", "WAITING"] = false ∧
    scriptCamstimStart 5 { evts := [], latest_start := 0 } =
      ({ evts := [.recordStart 5, .cmd .startScript], latest_start := 5 }, none) :=
  ⟨by decide, by decide, rfl⟩

/-- C4 (amended): `CamstimSyncShared.start()` and `ImageMVR.start()` raise
`AssertionError` without commanding the device when it is neither started
nor ready; when the device is ready they record the start timestamp
(`cls.latest_start = time.time()`) and only then command the device.
`ScriptCamstim.start()`, however, performs no check at all: it records the
timestamp and commands the device unconditionally, never raising. -/
theorem c4_amended_start_readiness :
    (∀ (ss st : List String) (now : ℚ) (d : DeviceRun),
        is_started ss st = false → is_ready_to_start ss st = false →
        camstimSyncStart ss st now d = (d, some .assertionError)) ∧
    (∀ (b : Bool) (cams : List CamStatus) (now : ℚ) (d : DeviceRun),
        mvrIsReadyToStart b cams = false →
        imageMVRStart b cams now d = (d, some .assertionError)) ∧
    (∀ (ss st : List String) (now : ℚ) (d : DeviceRun),
        is_ready_to_start ss st = true →
        camstimSyncStart ss st now d =
          ({ evts := d.evts ++ [.recordStart now, .cmd .start],
             latest_start := now }, none)) ∧
    (∀ (now : ℚ) (d : DeviceRun),
        scriptCamstimStart now d =
          ({ evts := d.evts ++ [.recordStart now, .cmd .startScript],
             latest_start := now }, none)) ∧
    camstimSyncStart syncStartedState ["READY", ""] 5 { evts := [], latest_start := 0 } =
      ({ evts := [.recordStart 5, .cmd .start], latest_start := 5 }, none) := by
  refine ⟨?_, ?_, ?_, fun _ _ => rfl, ?_⟩
  · intro ss st now d h1 h2
    simp [camstimSyncStart, h1, h2]
  · intro b cams now d h
    simp [imageMVRStart, h]
  · intro ss st now d h
    have h1 : is_started ss st = false := by
      by_contra hc
      simp only [Bool.not_eq_false] at hc
      simp [is_ready_to_start, hc] at h
    simp [camstimSyncStart, h1, h]
  · have h : is_ready_to_start syncStartedState ["READY", ""] = true := by decide
    have h1 : is_started syncStartedState ["READY", ""] = false := by decide
    simp [camstimSyncStart, h1, h]

/-- C5 counterexample: `ScriptCamstim.pretest` calls `start()` with no
`stop_on_error` guard; when the `is_ready_to_start()` probe inside its wait
loop raises (a network error), the exception propagates to the caller with
the start command issued and **no** stop ever attempted. -/
theorem c5_counterexample :
    (Evt.cmd .startScript) ∈ (scriptCamstimPretest 100 (some .zroError)).1.evts ∧
    (Evt.cmd .stop) ∉ (scriptCamstimPretest 100 (some .zroError)).1.evts ∧
    (scriptCamstimPretest 100 (some .zroError)).2 = some .zroError := by
  refine ⟨?_, ?_, rfl⟩
  · simp [scriptCamstimPretest, scriptCamstimStart]
  · simp [scriptCamstimPretest, scriptCamstimStart]

/-- C5 (amended): `utils.stop_on_error` attempts `stop()` and re-raises the
original exception on every error exit (with `reraise` true it never
swallows it), and `CamstimSyncShared.pretest` — the canonical caller —
issues a stop on **every** exit path after calling `start()` (via the guard
on error paths, via `finalize()`'s stop-if-started on the success path),
with the body's exception, if any, propagating unchanged to the caller.
`ScriptCamstim.pretest`, however, calls `start()` outside any guard
(`c5_counterexample`). -/
theorem c5_amended_guarded_stop :
    (∀ (d : DeviceRun) (e : PyErr),
        stop_on_error_run true (d, some e) =
          ({ d with evts := d.evts ++ [.excRecorded, .cmd .stop] }, some e)) ∧
    (∀ (ss st : List String) (now : ℚ) (verifyErr : Option PyErr),
        (Evt.cmd .stop) ∈ (camstimPretest ss st now verifyErr).1.evts ∧
        (camstimPretest ss st now verifyErr).2 =
          (camstimBody ss st now verifyErr { evts := [], latest_start := 0 }).2) := by
  refine ⟨fun _ _ => rfl, ?_⟩
  intro ss st now verifyErr
  rcases hb : camstimBody ss st now verifyErr { evts := [], latest_start := 0 } with ⟨d1, _ | e⟩
  · simp [camstimPretest, hb, stop_on_error_run]
  · simp [camstimPretest, hb, stop_on_error_run]

/-- C1 counterexample: `Sync` is a `Finalizable` device, but against a
device that never leaves the busy state, `Sync.finalize()` is still inside
its wait loop after 100 one-second polls — far beyond any 10–30 s finalize
timeout — having returned nothing: its `while not cls.is_ready_to_start()`
loop has no deadline at all. -/
theorem c1_counterexample :
    syncFinalize true (fun _ => false) 100 [] [] = none := by
  simp [syncFinalize, syncFinalizeLoop_alwaysBusy 100 0]

/-- C1 (amended): only the MVR finalize implementations are bounded.
`VideoMVR.finalize()` stops the device if still started, and its wait loop
always exits within 31 elapsed seconds — at its exit the device is ready or
the 30 s deadline has passed, never a fuel artefact — and when the device
never leaves busy it returns with an empty artifact delta,
`cls.data_files` unchanged and a logged warning, without raising.
`ImageMVR.finalize()` polls its still-processing condition with a 10 s
deadline (exiting within 11 elapsed seconds, again never by fuel) and on
timeout likewise returns with an empty artifact delta and a warning — it
issues no stop at all (`ImageMVR.stop` is a no-op).  `Sync.finalize()` and
`Camstim.finalize()`, however, poll with **no** deadline: against an
always-busy device their wait loop is still running after every number of
polls. -/
theorem c1_finalize_bounded_only_for_mvr :
    (∀ (s : Bool) (df nf : List DataFile),
        videoMVRFinalize s (fun _ => false) df nf =
          ((if s then [Evt.cmd .stop] else []), df, [])) ∧
    (∀ ready : Nat → Bool,
        videoMVRWait ready 0 32 ≤ 31 ∧
        (ready (videoMVRWait ready 0 32) = true ∨ 30 < videoMVRWait ready 0 32)) ∧
    (∀ df nf : List DataFile, imageMVRFinalize (fun _ => true) df nf = (df, [])) ∧
    (∀ busy : Nat → Bool,
        imageMVRWait busy 0 12 ≤ 11 ∧
        (busy (imageMVRWait busy 0 12) = false ∨ 10 < imageMVRWait busy 0 12)) ∧
    (∀ (fuel i : Nat), syncFinalizeLoop (fun _ => false) i fuel = none) := by
  refine ⟨?_, ?_, ?_, ?_, syncFinalizeLoop_alwaysBusy⟩
  · intro s df nf
    have hw : videoMVRWait (fun _ => false) 0 32 = 31 := by decide
    simp [videoMVRFinalize, hw]
  · intro ready
    exact ⟨videoMVRWait_le ready 32 0 (by omega), videoMVRWait_exits ready 32 0 (by omega)⟩
  · intro df nf
    have hw : imageMVRWait (fun _ => true) 0 12 = 11 := by decide
    simp [imageMVRFinalize, hw]
  · intro busy
    exact ⟨imageMVRWait_le busy 12 0 (by omega), imageMVRWait_exits busy 12 0 (by omega)⟩

/-- A file left in the data root by an earlier run: created and last
modified at `t = 10`. -/
def pastRunFile : DataFile := { name := "past_run.h5", ctime := 10, mtime := 10 }

/-- A more recent file: created at `t = 20`, last modified at `t = 30`. -/
def recentFile : DataFile := { name := "recent.h5", ctime := 20, mtime := 30 }

/-- C8: on a device never started this process lifetime
(`cls.latest_start` still at its class-level default `0`,
`proxyHasLatestStartAttr = true` because proxies.py line 60 declares the
attribute on `Proxy` itself), `get_latest_data` returns **every** matching
file ever created — here both files, including the one from the earlier run
— instead of the single most-recently-modified file that the unreachable
`hasattr` fallback (proxies.py lines 180–188) would return.  The second
conjunct evaluates that dead branch: it would return exactly the claimed
singleton.  The last conjunct shows the after-start half of the claim: with
`latest_start = 15` discovery is scoped to files created at or after 15. -/
theorem c8_never_started_discovery_returns_past_files :
    get_latest_data proxyHasLatestStartAttr 0 [pastRunFile, recentFile]
        (fun _ => true) 100 = .ok [pastRunFile, recentFile] ∧
    get_latest_data false 0 [pastRunFile, recentFile] (fun _ => true) 100 =
      .ok [recentFile] ∧
    ([pastRunFile, recentFile] : List DataFile) ≠ [recentFile] ∧
    get_latest_data proxyHasLatestStartAttr 15 [pastRunFile, recentFile]
        (fun _ => true) 100 = .ok [recentFile] := by
  refine ⟨?_, ?_, by simp, ?_⟩
  · norm_num [get_latest_data, proxyHasLatestStartAttr, get_files_created_between,
      pyInt, pastRunFile, recentFile, List.insertionSort, List.orderedInsert,
      fleq, List.filter]
  · norm_num [get_latest_data, maxByMtime, get_files_created_between,
      pyInt, pastRunFile, recentFile, List.insertionSort, List.orderedInsert,
      fleq, List.filter, List.foldl]
  · norm_num [get_latest_data, proxyHasLatestStartAttr, get_files_created_between,
      pyInt, pastRunFile, recentFile, List.insertionSort, List.orderedInsert,
      fleq, List.filter]

/-- C2 counterexample: with `window_start = 3/2`, the file created at
`t = 1` — strictly **before** the window start — is returned, because the
source filters on `int(start) <= ctime` and `int(3/2) = 1`.  (`window_end =
2` is respected.) -/
theorem c2_counterexample :
    get_files_created_between [{ name := "edge.h5", ctime := 1, mtime := 1 }]
        (fun _ => true) (3 / 2) (some 2) 2 =
      [{ name := "edge.h5", ctime := 1, mtime := 1 }] ∧
    ({ name := "edge.h5", ctime := 1, mtime := 1 } : DataFile).ctime < 3 / 2 := by
  constructor
  · norm_num [get_files_created_between, pyInt, List.insertionSort,
      List.orderedInsert, fleq, List.filter]
  · norm_num

/-- C2 (amended): for every directory, glob predicate and window with a
non-zero end, `get_files_created_between` returns exactly the matching files
whose creation time lies in `[int(window_start), window_end]` — never a file
strictly after `window_end`, and never one strictly before the *truncation*
`int(window_start)` of the window start (files with creation time in
`[int(window_start), window_start)` are also returned, see
`c2_counterexample`) — sorted ascending by creation time, and the empty list
(not an error) when no matching file's creation time falls in that
interval. -/
theorem c2_amended_window_filter (dir : List DataFile) (gm : DataFile → Bool)
    (start e now : ℚ) (he : e ≠ 0) :
    (∀ f ∈ get_files_created_between dir gm start (some e) now,
        (pyInt start : ℚ) ≤ f.ctime ∧ f.ctime ≤ e) ∧
    List.Sorted fleq (get_files_created_between dir gm start (some e) now) ∧
    ((∀ f ∈ dir, gm f = true → ¬((pyInt start : ℚ) ≤ f.ctime ∧ f.ctime ≤ e)) →
      get_files_created_between dir gm start (some e) now = []) ∧
    (get_files_created_between dir gm start (some e) now).Perm
      ((dir.filter gm).filter fun f =>
        decide ((pyInt start : ℚ) ≤ f.ctime) && decide (f.ctime ≤ e)) := by
  have hrw : get_files_created_between dir gm start (some e) now =
      List.insertionSort fleq ((dir.filter gm).filter fun f =>
        decide ((pyInt start : ℚ) ≤ f.ctime) && decide (f.ctime ≤ e)) := by
    unfold get_files_created_between
    simp [he]
  rw [hrw]
  refine ⟨?_, List.sorted_insertionSort fleq _, ?_, List.perm_insertionSort fleq _⟩
  · intro f hf
    have hmem := (List.perm_insertionSort fleq _).mem_iff.mp hf
    have := List.mem_filter.mp hmem
    simpa using this.2
  · intro h
    have hnil : ((dir.filter gm).filter fun f =>
        decide ((pyInt start : ℚ) ≤ f.ctime) && decide (f.ctime ≤ e)) = [] := by
      apply List.filter_eq_nil_iff.mpr
      intro f hf
      have hd := List.mem_filter.mp hf
      have := h f hd.1 hd.2
      simpa using this
    rw [hnil]
    rfl

/-- Witness for `c2_amended_window_filter`: the window `[3/2, 2]` at the
concrete one-file directory of the counterexample. -/
theorem c2_witness :
    List.Sorted fleq
      (get_files_created_between [{ name := "edge.h5", ctime := 1, mtime := 1 }]
        (fun _ => true) (3 / 2) (some 2) 2) :=
  (c2_amended_window_filter [{ name := "edge.h5", ctime := 1, mtime := 1 }]
    (fun _ => true) (3 / 2) 2 2 two_ne_zero).2.1

/-- Banker's rounding stays within one unit above the floor. -/
theorem roundHalfEven_bounds (q : ℚ) :
    ⌊q⌋ ≤ roundHalfEven q ∧ roundHalfEven q ≤ ⌊q⌋ + 1 := by
  unfold roundHalfEven
  by_cases h : Int.fract q = 1 / 2
  · rw [if_pos h]
    by_cases he : Even ⌊q⌋ <;> simp only [he, if_true, if_false] <;> omega
  · rw [if_neg h, round_eq]
    constructor
    · exact Int.floor_le_floor (by linarith)
    · rw [show (⌊q⌋ + 1 : ℤ) = ⌊q + 1⌋ from (Int.floor_add_one q).symm]
      exact Int.floor_le_floor (by linarith)

/-- Banker's rounding is monotone. -/
theorem roundHalfEven_mono {a b : ℚ} (hab : a ≤ b) :
    roundHalfEven a ≤ roundHalfEven b := by
  rcases lt_or_eq_of_le (Int.floor_le_floor hab) with hf | hf
  · have h1 := (roundHalfEven_bounds a).2
    have h2 := (roundHalfEven_bounds b).1
    omega
  · have hcast : ((⌊a⌋ : ℚ)) = ((⌊b⌋ : ℚ)) := by exact_mod_cast hf
    have hfra := Int.floor_add_fract a
    have hfrb := Int.floor_add_fract b
    have hfr : Int.fract a ≤ Int.fract b := by linarith
    unfold roundHalfEven
    by_cases ha2 : Int.fract a = 1 / 2
    · by_cases hb2 : Int.fract b = 1 / 2
      · have hab' : a = b := by linarith
        subst hab'
        exact le_refl _
      · have hbgt : 1 / 2 < Int.fract b := lt_of_le_of_ne (ha2 ▸ hfr) (Ne.symm hb2)
        have hblt := Int.fract_lt_one b
        have hrb : round b = ⌊b⌋ + 1 := by
          rw [round_eq]
          have : ⌊b + 1 / 2⌋ = ⌊b⌋ + 1 := by
            rw [Int.floor_eq_iff]
            constructor
            · push_cast
              linarith
            · push_cast
              linarith
          omega
        rw [if_pos ha2, if_neg hb2, hrb]
        split <;> omega
    · by_cases hb2 : Int.fract b = 1 / 2
      · have halt : Int.fract a < 1 / 2 := lt_of_le_of_ne (hb2 ▸ hfr) ha2
        have hapos := Int.fract_nonneg a
        have hra : round a = ⌊a⌋ := by
          rw [round_eq]
          have : ⌊a + 1 / 2⌋ = ⌊a⌋ := by
            rw [Int.floor_eq_iff]
            constructor
            · linarith
            · linarith
          omega
        rw [if_neg ha2, if_pos hb2, hra]
        split <;> omega
      · rw [if_neg ha2, if_neg hb2, round_eq, round_eq]
        exact Int.floor_le_floor (by linarith)

/-- Rounding to one decimal place is monotone. -/
theorem pyRound1_mono {a b : ℚ} (hab : a ≤ b) : pyRound1 a ≤ pyRound1 b := by
  unfold pyRound1
  have h := roundHalfEven_mono (show 10 * a ≤ 10 * b by linarith)
  have h' : ((roundHalfEven (10 * a) : ℚ)) ≤ ((roundHalfEven (10 * b) : ℚ)) := by
    exact_mod_cast h
  linarith

/-- C6: `get_required_disk_gb` equals `min_rec_hr * gb_per_hr` rounded to one
decimal place for recording (`Startable`) devices, is monotonically
non-decreasing in `min_rec_hr` and in `gb_per_hr` for non-negative values,
is exactly `0.0` for non-recording device variants, and yields `6.0` at the
profile `{gb_per_hr: 2.0, min_rec_hr: 3.0}`. -/
theorem c6_required_gb_formula_monotone :
    (∀ (s : Bool) (h b : ℚ), get_required_disk_gb s h b =
        if s then pyRound1 (h * b) else 0) ∧
    (∀ (s : Bool) (h1 h2 b : ℚ), 0 ≤ b → h1 ≤ h2 →
        get_required_disk_gb s h1 b ≤ get_required_disk_gb s h2 b) ∧
    (∀ (s : Bool) (h b1 b2 : ℚ), 0 ≤ h → b1 ≤ b2 →
        get_required_disk_gb s h b1 ≤ get_required_disk_gb s h b2) ∧
    (∀ h b : ℚ, get_required_disk_gb false h b = 0) ∧
    get_required_disk_gb true 3 2 = 6 := by
  refine ⟨?_, ?_, ?_, fun _ _ => rfl, ?_⟩
  · intro s h b
    cases s <;> simp [get_required_disk_gb]
  · intro s h1 h2 b hb h12
    cases s
    · simp [get_required_disk_gb]
    · simp only [get_required_disk_gb, Bool.true_eq_false, if_neg, ite_false]
      exact pyRound1_mono (mul_le_mul_of_nonneg_right h12 hb)
  · intro s h b1 b2 hh hb
    cases s
    · simp [get_required_disk_gb]
    · simp only [get_required_disk_gb, Bool.true_eq_false, if_neg, ite_false]
      exact pyRound1_mono (mul_le_mul_of_nonneg_left hb hh)
  · norm_num [get_required_disk_gb, pyRound1, roundHalfEven, Int.fract, round_eq]

/-- C7: the disk preflight fails closed — an inaccessible data root yields
not-OK with the `FileNotFoundError` recorded in the device's `exc` slot
rather than raised; a `0.0` requirement yields OK for **every** filesystem
observation (the filesystem is never read); and at the profile requiring
`6.0` GB, free space `5.9` GB fails while `6.1` GB passes. -/
theorem c7_disk_preflight_fails_closed :
    (∀ (s : Bool) (h b : ℚ) (st : ProxyErrSt), get_required_disk_gb s h b ≠ 0 →
        is_disk_space_ok s h b none st =
          (false, { exc := some .fileNotFoundError })) ∧
    (∀ (s : Bool) (h b : ℚ) (fb : Option ℚ) (st : ProxyErrSt),
        get_required_disk_gb s h b = 0 → is_disk_space_ok s h b fb st = (true, st)) ∧
    get_required_disk_gb true 3 2 = 6 ∧
    (∀ st : ProxyErrSt,
        is_disk_space_ok true 3 2 (some 5900000000) st = (false, st)) ∧
    (∀ st : ProxyErrSt,
        is_disk_space_ok true 3 2 (some 6100000000) st = (true, st)) := by
  have h6 : get_required_disk_gb true 3 2 = 6 := by
    norm_num [get_required_disk_gb, pyRound1, roundHalfEven, Int.fract, round_eq]
  refine ⟨?_, ?_, h6, ?_, ?_⟩
  · intro s h b st hreq
    simp [is_disk_space_ok, free_gb, hreq]
  · intro s h b fb st hreq
    simp [is_disk_space_ok, hreq]
  · intro st
    have hfree : free_gb (some 5900000000) = .ok (59 / 10) := by
      norm_num [free_gb, pyRound1, roundHalfEven, Int.fract, round_eq]
    rw [is_disk_space_ok, h6, hfree]
    norm_num
  · intro st
    have hfree : free_gb (some 6100000000) = .ok (61 / 10) := by
      norm_num [free_gb, pyRound1, roundHalfEven, Int.fract, round_eq]
    rw [is_disk_space_ok, h6, hfree]
    norm_num

end NpServices
